import Mathlib

/-!
Verification of the signal indexing and matching engine of the ThreatExchange
repository (python-threatexchange/threatexchange/signal_type/).

The Lean definitions below are a shallow embedding of the Python source:

- signal_base.py: HashComparisonResult and its constructors, SignalType.validate_hash,
  SimpleSignalType.compare_hash, TrivialSignalTypeIndex (exact-match index over an
  insertion-ordered dict), TrivialLinearSearchIndex (linear scan index).
- raw_text.py: RawTextSignal.compare_hash (Levenshtein with a length-derived
  threshold) and LevenshteinLinearSearch (linear index that normalizes at add time).
- pdq.py / tlsh_pdf.py / url.py / url_md5.py: concrete signal types; none of them
  overrides validate_hash.

Repository modules that are referenced by the sources above but are not part of the
available source tree (threatexchange/common.py, threatexchange/signal_type/index.py,
threatexchange/hashing/pdq_utils.py) are modelled from the specification; each such
definition carries a doc comment starting with Modelled from the spec.

Python dicts are embedded as insertion-ordered association lists, Python ints as Nat
(all quantities here are non-negative), and the pickle module as a faithful
encode/decode pair on a datatype of picklable objects.  The floating point
expression floor(len(hash1) * 0.05) of raw_text.py is embedded as the exact
rational floor len * 5 / 100; the two agree for every string length that fits in
memory, since len * 0.05 is never rounded across an integer boundary for such len.
-/

set_option maxRecDepth 40000

/-- Embeds HashComparisonResult (signal_base.py lines 17-19): a named tuple of a
match flag and an integer distance.  The Python field name is match, which is a
reserved word in Lean, so the field is called matched here. -/
structure HashComparisonResult where
  matched : Bool
  distance : Nat

deriving instance DecidableEq for HashComparisonResult

/-- Embeds HashComparisonResult.from_match (signal_base.py lines 21-23) at its
default argument dist = 0. -/
def HashComparisonResult.from_match : HashComparisonResult :=
  { matched := true, distance := 0 }

/-- Embeds HashComparisonResult.from_no_match (signal_base.py lines 25-27) at its
default argument dist = 1. -/
def HashComparisonResult.from_no_match : HashComparisonResult :=
  { matched := false, distance := 1 }

/-- Embeds HashComparisonResult.from_dist (signal_base.py lines 29-31):
the result matches iff dist is at most the threshold. -/
def HashComparisonResult.from_dist (dist threshold : Nat) : HashComparisonResult :=
  { matched := decide (dist ≤ threshold), distance := dist }

/-- Embeds HashComparisonResult.from_bool (signal_base.py lines 33-35):
cls(matches, int(matches)), so the distance is int(matches).  The Python
parameter name matches is a reserved word in Lean, hence matchesFlag. -/
def HashComparisonResult.from_bool (matchesFlag : Bool) : HashComparisonResult :=
  { matched := matchesFlag, distance := if matchesFlag then 1 else 0 }

/-- Embeds SignalType.validate_hash (signal_base.py lines 76-81): the base class
returns True for every input. -/
def SignalType.validate_hash (_hash1 : String) : Bool :=
  true

/-- Embeds SimpleSignalType.compare_hash (signal_base.py lines 176-178):
exact string equality through from_bool. -/
def SimpleSignalType.compare_hash (hash1 hash2 : String) : HashComparisonResult :=
  HashComparisonResult.from_bool (hash1 == hash2)

/-- Modelled from the spec: index.IndexMatch (threatexchange/signal_type/index.py is
not under src/; only its callers are).  The spec defines IndexMatch as the record
of a distance and an opaque payload. -/
structure IndexMatch (ν : Type) where
  distance : Nat
  payload : ν

deriving instance DecidableEq for IndexMatch

/-- Embeds Python dict.get on an insertion-ordered association list
(the state of TrivialSignalTypeIndex, signal_base.py line 187). -/
def dictGet {ν : Type} (st : List (String × List ν)) (k : String) : Option (List ν) :=
  (st.find? fun p => p.1 == k).map fun p => p.2

/-- Embeds Python dict item assignment on an insertion-ordered association list:
an existing key is updated in place, a new key is appended at the end. -/
def dictSet {ν : Type} : List (String × List ν) → String → List ν → List (String × List ν)
  | [], k, v => [(k, v)]
  | (k0, v0) :: rest, k, v =>
    if k0 == k then (k, v) :: rest else (k0, v0) :: dictSet rest k v

/-- Embeds TrivialSignalTypeIndex (signal_base.py lines 181-198): the state is a
Python dict from hash string to list of payloads, kept in insertion order. -/
structure TrivialSignalTypeIndex (ν : Type) where
  state : List (String × List ν)

/-- Embeds the body of the loop of TrivialSignalTypeIndex.add
(signal_base.py lines 193-198): l = state.get(k); if not l, a fresh list is
stored under k; the value is appended to the list. -/
def TrivialSignalTypeIndex.addOne {ν : Type} (st : List (String × List ν))
    (k : String) (val : ν) : List (String × List ν) :=
  match dictGet st k with
  | none => dictSet st k [val]
  | some l => if l.isEmpty then dictSet st k [val] else dictSet st k (l ++ [val])

/-- Embeds TrivialSignalTypeIndex.add (signal_base.py lines 192-198). -/
def TrivialSignalTypeIndex.add {ν : Type} (idx : TrivialSignalTypeIndex ν)
    (vals : List (String × ν)) : TrivialSignalTypeIndex ν :=
  { state := vals.foldl (fun st kv => TrivialSignalTypeIndex.addOne st kv.1 kv.2) idx.state }

/-- Embeds TrivialSignalTypeIndex.query (signal_base.py lines 189-190):
every payload stored under the exact key, each at distance 0. -/
def TrivialSignalTypeIndex.query {ν : Type} (idx : TrivialSignalTypeIndex ν)
    (hash : String) : List (IndexMatch ν) :=
  ((dictGet idx.state hash).getD []).map fun meta => { distance := 0, payload := meta }

/-- Embeds the universe of objects the pickle module can store for this
development: either of the two index classes, or some foreign picklable object. -/
inductive Pickled (ν : Type) where
  | trivialIndex (state : List (String × List ν))
  | linearIndex (state : List (String × ν))
  | other (obj : Nat)

/-- Embeds a byte blob fed to pickle.load: either a valid pickle of some object,
or bytes that are not a pickle at all. -/
inductive PickleBytes (ν : Type) where
  | valid (obj : Pickled ν)
  | malformed (junk : Nat)

/-- Embeds the error raised by the pickle module on bytes that are not a valid
pickle.  The repository defines no error type of its own for deserialization. -/
inductive UnpicklingError where
  | unpicklingError

deriving instance DecidableEq for UnpicklingError

/-- Embeds pickle.dump: a faithful encoding of the object. -/
def pickle_dump {ν : Type} (obj : Pickled ν) : PickleBytes ν :=
  PickleBytes.valid obj

/-- Embeds pickle.load: returns whatever object the bytes encode, with no check of
its type, and raises UnpicklingError on bytes that are not a valid pickle. -/
def pickle_load {ν : Type} : PickleBytes ν → Except UnpicklingError (Pickled ν)
  | PickleBytes.valid obj => Except.ok obj
  | PickleBytes.malformed _ => Except.error UnpicklingError.unpicklingError

/-- Embeds TrivialSignalTypeIndex.serialize (signal_base.py lines 206-207):
pickle.dump(self, fout). -/
def TrivialSignalTypeIndex.serialize {ν : Type} (idx : TrivialSignalTypeIndex ν) :
    PickleBytes ν :=
  pickle_dump (Pickled.trivialIndex idx.state)

/-- Embeds TrivialSignalTypeIndex.deserialize (signal_base.py lines 209-211):
return pickle.load(fin), with no validation of the loaded object. -/
def TrivialSignalTypeIndex.deserialize {ν : Type} (b : PickleBytes ν) :
    Except UnpicklingError (Pickled ν) :=
  pickle_load b

/-- Embeds TrivialLinearSearchIndex (signal_base.py lines 214-236): the state is a
list of (hash, payload) pairs in insertion order. -/
structure TrivialLinearSearchIndex (ν : Type) where
  state : List (String × ν)

/-- Embeds the loop of TrivialLinearSearchIndex.query (signal_base.py lines
227-233), abstracted over the compare_hash of the _SIGNAL_TYPE class attribute:
every stored pair whose comparison against the query hash matches is collected,
in insertion order, at the distance the comparator reports.  Note that the stored
hash is the first argument of the comparator and the query hash the second. -/
def TrivialLinearSearchIndex.queryAux {ν : Type}
    (cmp : String → String → HashComparisonResult) (query_hash : String) :
    List (String × ν) → List (IndexMatch ν)
  | [] => []
  | (hash, payload) :: rest =>
    let res := cmp hash query_hash
    if res.matched then
      { distance := res.distance, payload := payload } ::
        TrivialLinearSearchIndex.queryAux cmp query_hash rest
    else TrivialLinearSearchIndex.queryAux cmp query_hash rest

/-- Embeds TrivialLinearSearchIndex.query (signal_base.py lines 227-233). -/
def TrivialLinearSearchIndex.query {ν : Type}
    (cmp : String → String → HashComparisonResult)
    (idx : TrivialLinearSearchIndex ν) (query_hash : String) : List (IndexMatch ν) :=
  TrivialLinearSearchIndex.queryAux cmp query_hash idx.state

/-- Embeds TrivialLinearSearchIndex.add (signal_base.py lines 235-236):
self.state.extend(vals). -/
def TrivialLinearSearchIndex.add {ν : Type} (idx : TrivialLinearSearchIndex ν)
    (vals : List (String × ν)) : TrivialLinearSearchIndex ν :=
  { state := idx.state ++ vals }

/-- Embeds TrivialLinearSearchIndex.serialize (signal_base.py lines 244-245). -/
def TrivialLinearSearchIndex.serialize {ν : Type} (idx : TrivialLinearSearchIndex ν) :
    PickleBytes ν :=
  pickle_dump (Pickled.linearIndex idx.state)

/-- Embeds TrivialLinearSearchIndex.deserialize (signal_base.py lines 247-249):
return pickle.load(fin), with no validation of the loaded object. -/
def TrivialLinearSearchIndex.deserialize {ν : Type} (b : PickleBytes ν) :
    Except UnpicklingError (Pickled ν) :=
  pickle_load b

/-- Helper for the whitespace-collapsing part of the modelled normalization: the
Bool records whether the previous kept character position was inside a whitespace
run, so that a run contributes a single space. -/
def collapseWS : Bool → List Char → List Char
  | _, [] => []
  | prevWS, c :: rest =>
    if c.isWhitespace then
      (if prevWS then collapseWS true rest else ' ' :: collapseWS true rest)
    else c :: collapseWS false rest

/-- Modelled from the spec: common.normalize_string (threatexchange/common.py is not
under src/; only its callers are).  The spec describes the normalization of
text-based signal types as case-folding and whitespace collapsing, so the model
lowercases every character and collapses each whitespace run to a single space. -/
def normalize_string (s : String) : String :=
  { data := collapseWS false (s.data.map Char.toLower) }

/-- Embeds RawTextSignal.hash_from_str (raw_text.py lines 36-39):
the hash of a text is its normalized form. -/
def RawTextSignal.hash_from_str (content : String) : String :=
  normalize_string content

/-- Embeds the call Levenshtein.distance(hash1, hash2) of raw_text.py line 51
(the python-Levenshtein library): unit-cost edit distance between the two
strings, here Mathlib's levenshtein with the default cost structure. -/
def Levenshtein.distance (s1 s2 : String) : Nat :=
  levenshtein Levenshtein.defaultCost s1.data s2.data

/-- Embeds RawTextSignal.compare_hash (raw_text.py lines 41-52): the match
threshold is floor(len(hash1) * 0.05), computed from the FIRST argument only; a
length difference beyond the threshold short-circuits to from_no_match, otherwise
the result is (distance <= threshold, distance). -/
def RawTextSignal.compare_hash (hash1 hash2 : String) : HashComparisonResult :=
  if hash1.length * 5 / 100 < max hash1.length hash2.length - min hash1.length hash2.length
  then HashComparisonResult.from_no_match
  else
    { matched := decide (Levenshtein.distance hash1 hash2 ≤ hash1.length * 5 / 100),
      distance := Levenshtein.distance hash1 hash2 }

/-- Embeds LevenshteinLinearSearch.add (raw_text.py lines 77-80): every entry is
normalized with common.normalize_string before being handed to the parent add.
The parent query (signal_base.py lines 227-233) applies no such normalization. -/
def LevenshteinLinearSearch.add {ν : Type} (idx : TrivialLinearSearchIndex ν)
    (vals : List (String × ν)) : TrivialLinearSearchIndex ν :=
  TrivialLinearSearchIndex.add idx (vals.map fun sv => (normalize_string sv.1, sv.2))

/-- Embeds the query inherited by LevenshteinLinearSearch from
TrivialLinearSearchIndex, with _SIGNAL_TYPE = RawTextSignal (raw_text.py line 75). -/
def LevenshteinLinearSearch.query {ν : Type} (idx : TrivialLinearSearchIndex ν)
    (query_hash : String) : List (IndexMatch ν) :=
  TrivialLinearSearchIndex.query RawTextSignal.compare_hash idx query_hash

/-- Embeds the error the spec prescribes for a malformed hash reaching a
comparator. -/
inductive MalformedHashError where
  | malformedHashError

deriving instance DecidableEq for MalformedHashError

/-- Recognizes a hexadecimal digit. -/
def isHexDigit (c : Char) : Bool :=
  c.isDigit || (decide (97 ≤ c.toNat) && decide (c.toNat ≤ 102)) ||
    (decide (65 ≤ c.toNat) && decide (c.toNat ≤ 70))

/-- Value of a hexadecimal digit. -/
def hexDigitVal (c : Char) : Nat :=
  if c.isDigit then c.toNat - 48
  else if decide (97 ≤ c.toNat) && decide (c.toNat ≤ 102) then c.toNat - 87
  else c.toNat - 55

/-- Number of differing bits between two 4-bit values. -/
def nibbleBitsDiff (a b : Nat) : Nat :=
  (a ^^^ b) % 2 + (a ^^^ b) / 2 % 2 + (a ^^^ b) / 4 % 2 + (a ^^^ b) / 8 % 2

/-- Hamming distance between the bit representations of two equal-length
hex-encoded strings, computed nibble by nibble. -/
def hammingDistanceHex (h1 h2 : String) : Nat :=
  ((h1.data.zip h2.data).map fun cc => nibbleBitsDiff (hexDigitVal cc.1) (hexDigitVal cc.2)).sum

/-- Modelled from the spec: a well-formed PDQ hash is a fixed-length hex-encoded
bit string; PDQ hashes are 256 bits, hence 64 hex characters. -/
def validPdqHash (s : String) : Bool :=
  decide (s.length = 64) && s.data.all isHexDigit

/-- Modelled from the spec: simple_distance of threatexchange/hashing/pdq_utils.py
is not under src/ (only its caller pdq.py is).  The spec says the bit-distance
comparator computes the Hamming distance over the hash bit representation and
must fail with MalformedHashError on a wrong encoding or wrong length for the
fixed-width type, rather than silently truncating. -/
def simple_distance (h1 h2 : String) : Except MalformedHashError Nat :=
  if validPdqHash h1 && validPdqHash h2 then Except.ok (hammingDistanceHex h1 h2)
  else Except.error MalformedHashError.malformedHashError

/-- Embeds PdqSignal.PDQ_CONFIDENT_MATCH_THRESHOLD (pdq.py line 44). -/
def PdqSignal.PDQ_CONFIDENT_MATCH_THRESHOLD : Nat := 31

/-- Embeds PdqSignal.compare_hash (pdq.py lines 46-51): simple_distance then
from_dist against the confident-match threshold; a malformed hash propagates the
error of the distance computation. -/
def PdqSignal.compare_hash (hash1 hash2 : String) :
    Except MalformedHashError HashComparisonResult :=
  (simple_distance hash1 hash2).map fun dist =>
    HashComparisonResult.from_dist dist PdqSignal.PDQ_CONFIDENT_MATCH_THRESHOLD

/-- Embeds PdqSignal.validate_hash: pdq.py defines no override, so the base class
method (signal_base.py lines 76-81) is inherited. -/
def PdqSignal.validate_hash : String → Bool :=
  SignalType.validate_hash

/-- Embeds RawTextSignal.validate_hash: raw_text.py defines no override. -/
def RawTextSignal.validate_hash : String → Bool :=
  SignalType.validate_hash

/-- Embeds URLSignal.validate_hash: url.py defines no override. -/
def URLSignal.validate_hash : String → Bool :=
  SignalType.validate_hash

/-- Embeds UrlMD5Signal.validate_hash: url_md5.py defines no override. -/
def UrlMD5Signal.validate_hash : String → Bool :=
  SignalType.validate_hash

/-- Embeds TLSHSignal.validate_hash: tlsh_pdf.py defines no override. -/
def TLSHSignal.validate_hash : String → Bool :=
  SignalType.validate_hash

/-- The sample string of the spec and of RawTextSignal.get_examples
(raw_text.py line 61); 44 characters. -/
def sampleText : String := "The quick brown fox jumps over the lazy dog"

/-- The sample string after the modelled normalization. -/
def sampleTextLower : String := "the quick brown fox jumps over the lazy dog"

/-- The 43-character common tail of sampleText and sampleTextLower. -/
def sampleTextTail : String := "he quick brown fox jumps over the lazy dog"

/-- A string of twenty letters a. -/
def twentyAs : String := "aaaaaaaaaaaaaaaaaaaa"

/-- A string of nineteen letters a. -/
def nineteenAs : String := "aaaaaaaaaaaaaaaaaaa"

/-- Unit-cost Levenshtein distance of a list against itself is 0. -/
theorem levenshtein_defaultCost_self (xs : List Char) :
    levenshtein Levenshtein.defaultCost xs xs = 0 := by
  induction xs with
  | nil => rfl
  | cons x xs ih =>
    rw [levenshtein_cons_cons]
    simp only [Levenshtein.defaultCost_delete, Levenshtein.defaultCost_insert,
      Levenshtein.defaultCost_substitute, if_pos rfl, if_true]
    omega

/-- Unit-cost Levenshtein distance is symmetric. -/
theorem levenshtein_defaultCost_comm (xs ys : List Char) :
    levenshtein Levenshtein.defaultCost xs ys = levenshtein Levenshtein.defaultCost ys xs := by
  induction xs generalizing ys with
  | nil =>
    induction ys with
    | nil => rfl
    | cons y ys ih =>
      rw [levenshtein_nil_cons, levenshtein_cons_nil]
      rw [ih]
      simp only [Levenshtein.defaultCost_delete, Levenshtein.defaultCost_insert]
  | cons x xs ih =>
    induction ys with
    | nil =>
      rw [levenshtein_cons_nil, levenshtein_nil_cons]
      rw [ih []]
      simp only [Levenshtein.defaultCost_delete, Levenshtein.defaultCost_insert]
    | cons y ys ih2 =>
      rw [levenshtein_cons_cons, levenshtein_cons_cons]
      rw [ih (y :: ys), ih ys, ih2]
      have hs : (Levenshtein.defaultCost.substitute x y : Nat) =
          Levenshtein.defaultCost.substitute y x := by
        simp only [Levenshtein.defaultCost_substitute]
        by_cases h : x = y
        · rw [if_pos h, if_pos h.symm]
        · rw [if_neg h, if_neg fun e => h e.symm]
      rw [hs]
      simp only [Levenshtein.defaultCost_delete, Levenshtein.defaultCost_insert]
      omega

/-- Symmetry of Levenshtein.distance at the String level. -/
theorem Levenshtein.distance_comm (s1 s2 : String) :
    Levenshtein.distance s1 s2 = Levenshtein.distance s2 s1 :=
  levenshtein_defaultCost_comm s1.data s2.data

/-- The normalization of the sample string lowercases exactly its first letter. -/
theorem normalize_sampleText : normalize_string sampleText = sampleTextLower := by decide

/-- The Levenshtein distance between the normalized sample and the raw sample is
exactly 1 (the single substitution of the lowercased first letter). -/
theorem distance_sampleTextLower_sampleText :
    Levenshtein.distance sampleTextLower sampleText = 1 := by
  have h1 : sampleTextLower.data = 't' :: sampleTextTail.data := rfl
  have h2 : sampleText.data = 'T' :: sampleTextTail.data := rfl
  rw [Levenshtein.distance, h1, h2, levenshtein_cons_cons]
  rw [levenshtein_defaultCost_self sampleTextTail.data]
  simp only [Levenshtein.defaultCost_delete, Levenshtein.defaultCost_insert,
    Levenshtein.defaultCost_substitute, if_neg (by decide : ¬ ('t' = 'T'))]
  omega

/-- Comparing the stored (normalized) sample hash against the raw sample query
matches at distance 1. -/
theorem compare_sampleTextLower_sampleText :
    RawTextSignal.compare_hash sampleTextLower sampleText =
      { matched := true, distance := 1 } := by
  unfold RawTextSignal.compare_hash
  rw [distance_sampleTextLower_sampleText]
  decide

/-- Claim C1: the spec says the exact-string comparator returns distance 0 on a
match and distance 1 on a mismatch, so that distance 0 implies matched.  The code
(HashComparisonResult.from_bool, signal_base.py line 35) returns cls(matches,
int(matches)): evaluating SimpleSignalType.compare_hash at the failing inputs
shows distance 1 for equal hashes and distance 0 for unequal hashes, the exact
inversion of the claimed values. -/
theorem simple_compare_hash_distance_inverted :
    SimpleSignalType.compare_hash "a" "a" = { matched := true, distance := 1 }
    ∧ SimpleSignalType.compare_hash "a" "b" = { matched := false, distance := 0 } := by
  decide

/-- Claim C2 counterexample: compare_hash is not symmetric for RawTextSignal.
With a 20-character first argument the threshold is 1 and a 19-character second
argument is within it (match at distance 1), but with the arguments swapped the
threshold is 0 and the length pre-check short-circuits to no-match. -/
theorem raw_text_compare_hash_not_symmetric :
    RawTextSignal.compare_hash twentyAs nineteenAs = { matched := true, distance := 1 }
    ∧ RawTextSignal.compare_hash nineteenAs twentyAs = { matched := false, distance := 1 }
    ∧ RawTextSignal.compare_hash twentyAs nineteenAs ≠
        RawTextSignal.compare_hash nineteenAs twentyAs := by
  decide

/-- Claim C2 (amended): the exact-string comparator SimpleSignalType.compare_hash
is symmetric for every pair of hashes, and RawTextSignal.compare_hash is
symmetric whenever the two hashes have equal length; it is not symmetric in
general, because its match threshold is computed from the first argument only. -/
theorem compare_hash_symmetry_amended :
    (∀ a b : String, SimpleSignalType.compare_hash a b = SimpleSignalType.compare_hash b a)
    ∧ (∀ a b : String, a.length = b.length →
        RawTextSignal.compare_hash a b = RawTextSignal.compare_hash b a) := by
  constructor
  · intro a b
    unfold SimpleSignalType.compare_hash HashComparisonResult.from_bool
    by_cases h : a = b
    · rw [h]
    · rw [beq_eq_false_iff_ne.mpr h, beq_eq_false_iff_ne.mpr fun e => h e.symm]
  · intro a b h
    unfold RawTextSignal.compare_hash
    rw [h]
    have hcond : ¬ (b.length * 5 / 100 < max b.length b.length - min b.length b.length) := by
      simp
    rw [if_neg hcond, if_neg hcond, Levenshtein.distance_comm]

/-- Claim C2 witness: the amended symmetry applied at concrete inputs. -/
theorem compare_hash_symmetry_amended_witness :
    SimpleSignalType.compare_hash "x" "y" = SimpleSignalType.compare_hash "y" "x"
    ∧ RawTextSignal.compare_hash "ab" "cd" = RawTextSignal.compare_hash "cd" "ab" :=
  ⟨compare_hash_symmetry_amended.1 "x" "y",
    compare_hash_symmetry_amended.2 "ab" "cd" (by decide)⟩

/-- Claim C3: the spec says that adding the 44-character sample string to the
Levenshtein linear-scan index and querying with the same string returns one match
at distance 0, with normalization applied identically at add time and query time.
The code normalizes only at add time (LevenshteinLinearSearch.add, raw_text.py
line 80) and compares the stored normalized hash against the raw query
(signal_base.py line 230), so the query returns one match at distance 1: the
single edit is the first letter that add lowercased and the query did not. -/
theorem levenshtein_index_query_added_string_distance_one :
    LevenshteinLinearSearch.query
      (LevenshteinLinearSearch.add { state := [] } [(sampleText, (7 : Nat))]) sampleText =
      [{ distance := 1, payload := 7 }] := by
  have hadd : LevenshteinLinearSearch.add { state := [] } [(sampleText, (7 : Nat))] =
      { state := [(normalize_string sampleText, 7)] } := rfl
  rw [hadd, normalize_sampleText]
  simp only [LevenshteinLinearSearch.query, TrivialLinearSearchIndex.query,
    TrivialLinearSearchIndex.queryAux, compare_sampleTextLower_sampleText]
  rw [if_pos trivial]

/-- Claim C4: both index variants round-trip through serialization: deserializing
the serialized bytes of a populated index succeeds and yields an index object
with the same state, whose every query answers exactly as the original. -/
theorem index_serialize_roundtrip (ν : Type) (cmp : String → String → HashComparisonResult)
    (idx : TrivialSignalTypeIndex ν) (idx2 : TrivialLinearSearchIndex ν) (q : String) :
    (∃ r : TrivialSignalTypeIndex ν,
        TrivialSignalTypeIndex.deserialize (TrivialSignalTypeIndex.serialize idx) =
          Except.ok (Pickled.trivialIndex r.state)
        ∧ TrivialSignalTypeIndex.query r q = TrivialSignalTypeIndex.query idx q)
    ∧ (∃ r : TrivialLinearSearchIndex ν,
        TrivialLinearSearchIndex.deserialize (TrivialLinearSearchIndex.serialize idx2) =
          Except.ok (Pickled.linearIndex r.state)
        ∧ TrivialLinearSearchIndex.query cmp r q = TrivialLinearSearchIndex.query cmp idx2 q) :=
  ⟨⟨idx, rfl, rfl⟩, ⟨idx2, rfl, rfl⟩⟩

/-- Claim C5: the exact-match index accumulates payloads under a duplicate key:
adding (abc, p1) and then (abc, p2) and querying abc returns both payloads, in
insertion order, each at distance 0. -/
theorem exact_match_index_accumulates_payloads (ν : Type) (p1 p2 : ν) :
    TrivialSignalTypeIndex.query
      (TrivialSignalTypeIndex.add
        (TrivialSignalTypeIndex.add { state := [] } [("abc", p1)]) [("abc", p2)]) "abc" =
      [{ distance := 0, payload := p1 }, { distance := 0, payload := p2 }] :=
  rfl

/-- Claim C6: PdqSignal.compare_hash on a malformed hash (wrong encoding or wrong
length for the 64-hex-character fixed-width PDQ type) fails with
MalformedHashError, for every pair of inputs of which at least one is malformed. -/
theorem pdq_compare_hash_malformed_error (h1 h2 : String)
    (h : validPdqHash h1 = false ∨ validPdqHash h2 = false) :
    PdqSignal.compare_hash h1 h2 = Except.error MalformedHashError.malformedHashError := by
  unfold PdqSignal.compare_hash simple_distance
  rcases h with h | h <;> simp [h, Except.map]

/-- Claim C6 witness: a two-character non-hex string is rejected against a
well-formed all-zero PDQ hash. -/
theorem pdq_compare_hash_malformed_error_witness :
    validPdqHash "zz" = false
    ∧ PdqSignal.compare_hash "zz"
        "0000000000000000000000000000000000000000000000000000000000000000" =
        Except.error MalformedHashError.malformedHashError :=
  ⟨by decide, pdq_compare_hash_malformed_error _ _ (Or.inl (by decide))⟩

/-- Claim C7 counterexample: a byte sequence that is a valid pickle of a foreign
object is not a valid serialized index, yet deserialize succeeds and returns the
foreign object unchanged instead of failing; no CorruptIndexError exists in the
code. -/
theorem deserialize_foreign_bytes_no_error :
    (TrivialSignalTypeIndex.deserialize (PickleBytes.valid (Pickled.other 0)) :
        Except UnpicklingError (Pickled Nat)) = Except.ok (Pickled.other 0) :=
  rfl

/-- Claim C7 (amended): deserialize performs no validation at all: bytes that are
not a valid pickle fail with the pickle module UnpicklingError (the code defines
no CorruptIndexError), and bytes holding a valid pickle of any object, foreign or
not, deserialize successfully to that object, silently producing a non-index
result in the foreign case; this holds for both index variants. -/
theorem deserialize_no_validation (ν : Type) :
    (∀ obj : Pickled ν,
        TrivialSignalTypeIndex.deserialize (PickleBytes.valid obj) = Except.ok obj
        ∧ TrivialLinearSearchIndex.deserialize (PickleBytes.valid obj) = Except.ok obj)
    ∧ (∀ junk : Nat,
        TrivialSignalTypeIndex.deserialize (PickleBytes.malformed junk : PickleBytes ν) =
          Except.error UnpicklingError.unpicklingError
        ∧ TrivialLinearSearchIndex.deserialize (PickleBytes.malformed junk : PickleBytes ν) =
          Except.error UnpicklingError.unpicklingError) :=
  ⟨fun _ => ⟨rfl, rfl⟩, fun _ => ⟨rfl, rfl⟩⟩

/-- Claim C8: querying an empty index returns an empty match list for both
variants, and querying the exact-match index for a key absent from its state
returns an empty match list; no query raises an error (every query is total). -/
theorem query_empty_or_absent_returns_nil (ν : Type)
    (cmp : String → String → HashComparisonResult) (q : String) :
    TrivialSignalTypeIndex.query { state := ([] : List (String × List ν)) } q = []
    ∧ (∀ st : List (String × List ν), dictGet st q = none →
        TrivialSignalTypeIndex.query { state := st } q = [])
    ∧ TrivialLinearSearchIndex.query cmp { state := ([] : List (String × ν)) } q = [] := by
  refine ⟨rfl, ?_, rfl⟩
  intro st h
  unfold TrivialSignalTypeIndex.query
  rw [h]
  rfl

/-- Claim C8 witness: querying a populated exact-match index with an absent key
returns the empty list. -/
theorem query_empty_or_absent_returns_nil_witness :
    TrivialSignalTypeIndex.query { state := [("abc", [(1 : Nat)])] } "missing" = [] :=
  (query_empty_or_absent_returns_nil Nat SimpleSignalType.compare_hash "missing").2.1
    [("abc", [1])] (by decide)

/-- Claim C9: add with an empty entry list is a no-op for every index of either
variant (including the normalizing LevenshteinLinearSearch add): every query
answers the same before and after. -/
theorem add_empty_is_noop (ν : Type) (cmp : String → String → HashComparisonResult) :
    (∀ (idx : TrivialSignalTypeIndex ν) (q : String),
        TrivialSignalTypeIndex.query (TrivialSignalTypeIndex.add idx []) q =
          TrivialSignalTypeIndex.query idx q)
    ∧ (∀ (idx : TrivialLinearSearchIndex ν) (q : String),
        TrivialLinearSearchIndex.query cmp (TrivialLinearSearchIndex.add idx []) q =
          TrivialLinearSearchIndex.query cmp idx q)
    ∧ (∀ (idx : TrivialLinearSearchIndex ν) (q : String),
        TrivialLinearSearchIndex.query cmp (LevenshteinLinearSearch.add idx []) q =
          TrivialLinearSearchIndex.query cmp idx q) := by
  have hlin : ∀ idx : TrivialLinearSearchIndex ν,
      TrivialLinearSearchIndex.add idx [] = idx := by
    intro idx
    simp [TrivialLinearSearchIndex.add]
  refine ⟨fun idx q => rfl, fun idx q => ?_, fun idx q => ?_⟩
  · rw [hlin]
  · show TrivialLinearSearchIndex.query cmp (TrivialLinearSearchIndex.add idx []) q = _
    rw [hlin]

/-- Claim C10: every signal type defined in the repository inherits the base
SignalType.validate_hash, which returns true on every input string, so hash
validation never rejects anything. -/
theorem validate_hash_always_true (s : String) :
    PdqSignal.validate_hash s = true
    ∧ RawTextSignal.validate_hash s = true
    ∧ URLSignal.validate_hash s = true
    ∧ UrlMD5Signal.validate_hash s = true
    ∧ TLSHSignal.validate_hash s = true :=
  ⟨rfl, rfl, rfl, rfl, rfl⟩
